import Mathlib

/-!
Shallow embedding of the `password_policy_analyzer` package
(`policy.py`, `weak_passwords.py`, `analyzer.py`).

  * Passwords and file contents are `List Char` (Python strings are
    sequences of Unicode code points; `len` is the list length).
  * Unicode-table-dependent operations of the Python runtime
    (`unicodedata.normalize("NFC", ·)`, `str.casefold`, `str.isupper`,
    `str.islower`, `str.isdigit`, `str.lower`, `str.upper`) are
    parameters of the model, collected in `AnalyzerEnv`, since their
    tables are not part of the repository.  `str.isspace` is modelled
    concretely (`pyIsSpace`): its character set is small and fixed.
  * The filesystem (blocklist `path.exists()` plus the file's bytes) is
    a parameter `fs : String → Option (List Char)`; `none` models a
    missing file.
  * The network collaborator `check_pwned_passwords_k_anonymity` is a
    parameter `net : List Char → Except ε PwnedPasswordMatch`; an
    `Except.error` models a raised exception, which `_check_pwned`
    catches.
-/

namespace PasswordPolicyAnalyzer

/-- `PasswordPolicy` from `policy.py`: an immutable configuration record.
Python `int` fields are modelled as `Int`; `Path | None` as `Option String`. -/
structure PasswordPolicy where
  min_length : Int := 12
  max_length : Int := 128
  require_upper : Bool := false
  require_lower : Bool := false
  require_digit : Bool := false
  require_symbol : Bool := false
  allow_spaces : Bool := true
  allow_unicode : Bool := true
  normalize_unicode_nfc : Bool := false
  local_blocklist_path : Option String := none
  check_pwned_passwords : Bool := false
  forbid_context_words : Bool := true
deriving DecidableEq

/-- `PolicyViolation` from `policy.py`. -/
structure PolicyViolation where
  code : String
  message : String
  help_text : Option String := none
deriving DecidableEq

/-- `PasswordAnalysis` from `policy.py`. -/
structure PasswordAnalysis where
  is_compliant : Bool
  violations : List PolicyViolation
  suggestions : List String
deriving DecidableEq

/-- `PwnedPasswordMatch` from `weak_passwords.py`. -/
structure PwnedPasswordMatch where
  is_pwned : Bool
  breach_count : Int := 0
deriving DecidableEq

/-- Python `str.isspace` / the whitespace set used by `str.strip()`:
code points 0x09-0x0D, 0x1C-0x1F, 0x20, 0x85, 0xA0, 0x1680,
0x2000-0x200A, 0x2028, 0x2029, 0x202F, 0x205F, 0x3000. -/
def pyIsSpace (c : Char) : Bool :=
  let n := c.toNat
  (9 ≤ n && n ≤ 13) || (28 ≤ n && n ≤ 32) || n == 133 || n == 160 ||
  n == 5760 || (8192 ≤ n && n ≤ 8202) || n == 8232 || n == 8233 ||
  n == 8239 || n == 8287 || n == 12288

/-- Python `str.strip()` with no argument: drop leading and trailing
whitespace characters. -/
def pyStrip (s : List Char) : List Char :=
  ((s.dropWhile pyIsSpace).reverse.dropWhile pyIsSpace).reverse

/-- Membership in `_SYMBOLS = set(string.punctuation)` from `analyzer.py`:
the 32 ASCII punctuation characters, i.e. code points 33-47, 58-64,
91-96 and 123-126. -/
def isSymbolChar (c : Char) : Bool :=
  let n := c.toNat
  (33 ≤ n && n ≤ 47) || (58 ≤ n && n ≤ 64) || (91 ≤ n && n ≤ 96) ||
  (123 ≤ n && n ≤ 126)

/-- Splitting a file's text into the lines iterated by Python's
`for line in f`, with the terminating newline of each line removed
(the later `strip()` of `load_blocklist` removes it anyway, and
`str.splitlines`-style iteration never yields it to the match). -/
def splitOnNewline : List Char → List (List Char)
  | [] => [[]]
  | c :: rest =>
    if c = '\n' then [] :: splitOnNewline rest
    else
      match splitOnNewline rest with
      | [] => [[c]]
      | l :: ls => (c :: l) :: ls

/-- `load_blocklist` from `weak_passwords.py`: for each line, `strip()`
it and keep it when non-empty.  The Python `set` is modelled as a list
used only through membership. -/
def load_blocklist (content : List Char) : List (List Char) :=
  ((splitOnNewline content).map pyStrip).filter (fun item => !item.isEmpty)

/-- Loader following the specification's words instead of the source:
newline-delimited entries, blank lines ignored, no case-folding and no
trimming other than the line terminator.  Compared in the C2 theorems
against the source's `load_blocklist`, which `strip()`s every line. -/
def load_blocklist_specword (content : List Char) : List (List Char) :=
  (splitOnNewline content).filter (fun line => !line.isEmpty)

/-- The Unicode-table and I/O collaborators of the analyzer, see the
module docstring.  `ε` is the type of exceptions the breach lookup can
raise. -/
structure AnalyzerEnv (ε : Type) where
  nfc : List Char → List Char
  casefold : List Char → List Char
  isupper : Char → Bool
  islower : Char → Bool
  isdigit : Char → Bool
  lower : List Char → List Char
  upper : List Char → List Char
  fs : String → Option (List Char)
  net : List Char → Except ε PwnedPasswordMatch

variable {ε : Type}

/-- `_apply_normalization` from `analyzer.py`. -/
def apply_normalization (env : AnalyzerEnv ε) (password : List Char)
    (policy : PasswordPolicy) : List Char :=
  if policy.normalize_unicode_nfc then env.nfc password else password

/-- The `length_too_short` violation built by `_check_length`. -/
def lengthTooShortV (minLen : Int) : PolicyViolation :=
  { code := "length_too_short"
    message := "Password must be at least " ++ toString minLen ++ " characters."
    help_text := some "Long passphrases are usually easier to remember and harder to guess." }

/-- The `length_too_long` violation built by `_check_length`. -/
def lengthTooLongV (maxLen : Int) : PolicyViolation :=
  { code := "length_too_long"
    message := "Password must be at most " ++ toString maxLen ++ " characters."
    help_text := some "Rejecting (not truncating) avoids surprising login bugs and performance issues." }

/-- `_check_length` from `analyzer.py`. -/
def check_length (password : List Char) (policy : PasswordPolicy) :
    List PolicyViolation :=
  (if (password.length : Int) < policy.min_length then [lengthTooShortV policy.min_length] else []) ++
  (if (password.length : Int) > policy.max_length then [lengthTooLongV policy.max_length] else [])

/-- The `spaces_not_allowed` violation built by `_check_character_rules`. -/
def spacesNotAllowedV : PolicyViolation :=
  { code := "spaces_not_allowed"
    message := "Spaces are not allowed by this policy."
    help_text := some "If you control the system, allowing spaces is generally more user-friendly." }

/-- The `unicode_not_allowed` violation built by `_check_character_rules`. -/
def unicodeNotAllowedV : PolicyViolation :=
  { code := "unicode_not_allowed"
    message := "Unicode characters are not allowed by this policy."
    help_text := some "If possible, allow Unicode to support better passphrases and international users." }

/-- `_check_character_rules` from `analyzer.py`.  The source's `for`
loop over the password appends `unicode_not_allowed` and `break`s at the
first code point above 127, i.e. it appends one violation iff any such
character exists. -/
def check_character_rules (password : List Char) (policy : PasswordPolicy) :
    List PolicyViolation :=
  (if !policy.allow_spaces && password.any pyIsSpace then [spacesNotAllowedV] else []) ++
  (if !policy.allow_unicode && password.any (fun ch => ch.toNat > 127) then
    [unicodeNotAllowedV] else [])

/-- `_check_composition` from `analyzer.py`. -/
def check_composition (env : AnalyzerEnv ε) (password : List Char)
    (policy : PasswordPolicy) : List PolicyViolation :=
  let has_upper := password.any env.isupper
  let has_lower := password.any env.islower
  let has_digit := password.any env.isdigit
  let has_symbol := password.any isSymbolChar
  (if policy.require_upper && !has_upper then
    [{ code := "missing_upper", message := "Add at least one uppercase letter (A-Z)." }] else []) ++
  (if policy.require_lower && !has_lower then
    [{ code := "missing_lower", message := "Add at least one lowercase letter (a-z)." }] else []) ++
  (if policy.require_digit && !has_digit then
    [{ code := "missing_digit", message := "Add at least one digit (0-9)." }] else []) ++
  (if policy.require_symbol && !has_symbol then
    [{ code := "missing_symbol", message := "Add at least one symbol (example: ! or #)." }] else [])

/-- The `contains_context_word` violation built by `_check_context_words`
for the cleaned word `w`. -/
def containsContextWordV (w : List Char) : PolicyViolation :=
  { code := "contains_context_word"
    message := "Password contains a context word: \x27" ++ String.mk w ++ "\x27."
    help_text := some "Avoid using your name/username/company name inside passwords." }

/-- The loop of `_check_context_words`: `cf` is `str.casefold`,
`lowered` is the casefolded password; the loop `break`s after the first
match. -/
def context_words_loop (cf : List Char → List Char) (lowered : List Char) :
    List (List Char) → List PolicyViolation
  | [] => []
  | word :: rest =>
    let cleaned := pyStrip word
    if cleaned.isEmpty then context_words_loop cf lowered rest
    else if List.IsInfix (cf cleaned) lowered then [containsContextWordV cleaned]
    else context_words_loop cf lowered rest

/-- `_check_context_words` from `analyzer.py`. -/
def check_context_words (cf : List Char → List Char) (password : List Char)
    (context_words : List (List Char)) : List PolicyViolation :=
  context_words_loop cf (cf password) context_words

/-- The `blocklist_missing` violation built by `_check_blocklist`. -/
def blocklistMissingV (path : String) : PolicyViolation :=
  { code := "blocklist_missing"
    message := "Blocklist file not found: " ++ path
    help_text := some "Fix your config or disable blocklist checking." }

/-- The `blocklisted_password` violation built by `_check_blocklist`. -/
def blocklistedPasswordV : PolicyViolation :=
  { code := "blocklisted_password"
    message := "This password is in a common/weak password list."
    help_text := some "Pick something unique - avoid small edits like adding \x271!\x27 to a common word." }

/-- `_check_blocklist` from `analyzer.py`. -/
def check_blocklist (env : AnalyzerEnv ε) (password : List Char)
    (policy : PasswordPolicy) : List PolicyViolation :=
  match policy.local_blocklist_path with
  | none => []
  | some path =>
    match env.fs path with
    | none => [blocklistMissingV path]
    | some content =>
      let blocked := load_blocklist content
      if blocked.contains password then [blocklistedPasswordV] else []

/-- The `pwned_check_failed` violation built by `_check_pwned`. -/
def pwnedCheckFailedV : PolicyViolation :=
  { code := "pwned_check_failed"
    message := "Could not complete breach check (network/API error)."
    help_text := some "Try again later or disable pwned check in your config." }

/-- The `pwned_password` violation built by `_check_pwned`. -/
def pwnedPasswordV (count : Int) : PolicyViolation :=
  { code := "pwned_password"
    message := "This password appears in known breach data."
    help_text := some ("Seen " ++ toString count ++ " times in breaches. Choose a different password.") }

/-- `_check_pwned` from `analyzer.py`: the `try/except Exception` around
the network call is the `Except` match. -/
def check_pwned (env : AnalyzerEnv ε) (password : List Char)
    (policy : PasswordPolicy) : List PolicyViolation :=
  if !policy.check_pwned_passwords then []
  else
    match env.net password with
    | Except.error _ => [pwnedCheckFailedV]
    | Except.ok m =>
      if m.is_pwned then [pwnedPasswordV m.breach_count] else []

/-- The always-present suggestion of `_general_suggestions`. -/
def tipUnique : String :=
  "Use unique passwords per site (a password manager helps)."

/-- The length suggestion of `_general_suggestions`. -/
def tipLonger : String :=
  "Consider using a longer passphrase (14+ characters) for better security."

/-- The case-diversity suggestion of `_general_suggestions`. -/
def tipMixing : String :=
  "Mixing words or using a multi-word passphrase can improve strength and memorability."

/-- `_general_suggestions` from `analyzer.py`. -/
def general_suggestions (env : AnalyzerEnv ε) (password : List Char)
    (policy : PasswordPolicy) : List String :=
  (if (password.length : Int) < max 14 policy.min_length then [tipLonger] else []) ++
  (if env.lower password = password || env.upper password = password then [tipMixing] else []) ++
  [tipUnique]

/-- `analyze_password` from `analyzer.py`.  `context_words = context_words
or []` followed by `if policy.forbid_context_words and context_words`
is the emptiness test on the (possibly defaulted) list. -/
def analyze_password (env : AnalyzerEnv ε) (password : List Char)
    (policy : PasswordPolicy) (context_words : List (List Char)) :
    PasswordAnalysis :=
  let normalized := apply_normalization env password policy
  let violations :=
    check_length normalized policy ++
    check_character_rules normalized policy ++
    check_composition env normalized policy ++
    (if policy.forbid_context_words && !context_words.isEmpty then
      check_context_words env.casefold normalized context_words else []) ++
    check_blocklist env normalized policy ++
    check_pwned env normalized policy
  let suggestions := general_suggestions env normalized policy
  { is_compliant := violations.length == 0
    violations := violations
    suggestions := suggestions }

/-! ### Concrete environments used for closed statements

`defaultEnv` instantiates the Unicode-table parameters with the ASCII
case tables and makes both collaborators trivial (no files, a breach
lookup that always answers "not pwned"). -/

/-- A concrete analyzer environment for closed statements. -/
def defaultEnv : AnalyzerEnv Unit where
  nfc := id
  casefold := fun s => s.map Char.toLower
  isupper := Char.isUpper
  islower := Char.isLower
  isdigit := Char.isDigit
  lower := fun s => s.map Char.toLower
  upper := fun s => s.map Char.toUpper
  fs := fun _ => none
  net := fun _ => Except.ok { is_pwned := false }

/-- Environment whose filesystem holds one blocklist file `bl.txt`
containing the four bytes `" pw\n"` (a line with a leading space). -/
def envBlockSpace : AnalyzerEnv Unit :=
  { defaultEnv with
    fs := fun p => if p = "bl.txt" then some [' ', 'p', 'w', '\n'] else none }

/-- Environment whose breach lookup always raises. -/
def envNetError : AnalyzerEnv Unit :=
  { defaultEnv with net := fun _ => Except.error () }

/-- Environment whose breach lookup always succeeds with a pwned match
seen 3 times. -/
def envNetPwned : AnalyzerEnv Unit :=
  { defaultEnv with net := fun _ => Except.ok { is_pwned := true, breach_count := 3 } }

/-! ### Which violation codes each check can emit -/

theorem code_of_mem_check_length {pw : List Char} {pol : PasswordPolicy}
    {v : PolicyViolation} (h : v ∈ check_length pw pol) :
    v.code = "length_too_short" ∨ v.code = "length_too_long" := by
  unfold check_length at h
  rcases List.mem_append.1 h with h | h <;> split at h <;>
    simp_all [lengthTooShortV, lengthTooLongV]

theorem code_of_mem_check_character_rules {pw : List Char}
    {pol : PasswordPolicy} {v : PolicyViolation}
    (h : v ∈ check_character_rules pw pol) :
    v.code = "spaces_not_allowed" ∨ v.code = "unicode_not_allowed" := by
  unfold check_character_rules at h
  rcases List.mem_append.1 h with h | h <;> split at h <;>
    simp_all [spacesNotAllowedV, unicodeNotAllowedV]

theorem code_of_mem_check_composition {env : AnalyzerEnv ε} {pw : List Char}
    {pol : PasswordPolicy} {v : PolicyViolation}
    (h : v ∈ check_composition env pw pol) :
    v.code = "missing_upper" ∨ v.code = "missing_lower" ∨
    v.code = "missing_digit" ∨ v.code = "missing_symbol" := by
  unfold check_composition at h
  simp only [List.mem_append] at h
  rcases h with ((h | h) | h) | h <;> split at h <;> simp_all

theorem code_of_mem_context_words_loop {cf : List Char → List Char}
    {lowered : List Char} {ws : List (List Char)} {v : PolicyViolation}
    (h : v ∈ context_words_loop cf lowered ws) :
    v.code = "contains_context_word" := by
  induction ws with
  | nil => simp [context_words_loop] at h
  | cons word rest ih =>
    unfold context_words_loop at h
    dsimp only at h
    split at h
    · exact ih h
    · split at h
      · simp_all [containsContextWordV]
      · exact ih h

theorem code_of_mem_check_context_words {cf : List Char → List Char}
    {pw : List Char} {ws : List (List Char)} {v : PolicyViolation}
    (h : v ∈ check_context_words cf pw ws) :
    v.code = "contains_context_word" :=
  code_of_mem_context_words_loop h

theorem code_of_mem_check_blocklist {env : AnalyzerEnv ε} {pw : List Char}
    {pol : PasswordPolicy} {v : PolicyViolation}
    (h : v ∈ check_blocklist env pw pol) :
    v.code = "blocklist_missing" ∨ v.code = "blocklisted_password" := by
  unfold check_blocklist at h
  split at h
  · simp at h
  · split at h
    · simp_all [blocklistMissingV]
    · dsimp only at h
      split at h <;> simp_all [blocklistedPasswordV]

theorem code_of_mem_check_pwned {env : AnalyzerEnv ε} {pw : List Char}
    {pol : PasswordPolicy} {v : PolicyViolation}
    (h : v ∈ check_pwned env pw pol) :
    v.code = "pwned_check_failed" ∨ v.code = "pwned_password" := by
  unfold check_pwned at h
  split at h
  · simp at h
  · split at h
    · simp_all [pwnedCheckFailedV]
    · split at h <;> simp_all [pwnedPasswordV]

/-! ### C1 -/

/-- C1: for every password, policy and context-word list, the
`PasswordAnalysis` returned by `analyze_password` has
`is_compliant = true` iff its violation sequence is empty.  Since
`is_compliant` is determined by the violation list alone, the suggestion
sequence has no effect on it. -/
theorem C1_is_compliant_iff_no_violations (env : AnalyzerEnv ε)
    (pw : List Char) (pol : PasswordPolicy) (ctx : List (List Char)) :
    (analyze_password env pw pol ctx).is_compliant = true ↔
    (analyze_password env pw pol ctx).violations = [] := by
  simp [analyze_password, List.length_eq_zero]

/-! ### C7 -/

/-- C7: `analyze_password` runs every enabled check, and the violation
list of its result is the concatenation of the individual checks'
outputs — length, character-set, composition, context-words (when
enabled), blocklist, breach-lookup, in that order — each applied to the
normalized password. -/
theorem C7_violations_are_ordered_concatenation (env : AnalyzerEnv ε)
    (pw : List Char) (pol : PasswordPolicy) (ctx : List (List Char)) :
    (analyze_password env pw pol ctx).violations =
      check_length (apply_normalization env pw pol) pol ++
      check_character_rules (apply_normalization env pw pol) pol ++
      check_composition env (apply_normalization env pw pol) pol ++
      (if pol.forbid_context_words && !ctx.isEmpty then
        check_context_words env.casefold (apply_normalization env pw pol) ctx
      else []) ++
      check_blocklist env (apply_normalization env pw pol) pol ++
      check_pwned env (apply_normalization env pw pol) pol := rfl

/-! ### C5 -/

/-- C5: the length check emits `length_too_short` exactly when the
password's length in code points is strictly below `min_length`, emits
`length_too_long` exactly when it is strictly above `max_length`, and
with an inverted policy (`min_length > max_length`) both violations can
appear in one analysis. -/
theorem C5_length_check (pw : List Char) (pol : PasswordPolicy) :
    ((∃ v ∈ check_length pw pol, v.code = "length_too_short") ↔
      (pw.length : Int) < pol.min_length) ∧
    ((∃ v ∈ check_length pw pol, v.code = "length_too_long") ↔
      pol.max_length < (pw.length : Int)) ∧
    (∃ pol2 : PasswordPolicy, ∃ pw2 : List Char,
      pol2.max_length < pol2.min_length ∧
      lengthTooShortV pol2.min_length ∈
        (analyze_password defaultEnv pw2 pol2 []).violations ∧
      lengthTooLongV pol2.max_length ∈
        (analyze_password defaultEnv pw2 pol2 []).violations) := by
  have hcodes : ("length_too_short" : String) ≠ "length_too_long" := by decide
  refine ⟨?_, ?_, ?_⟩
  · unfold check_length
    split <;> split <;>
      simp_all [lengthTooShortV, lengthTooLongV, not_lt, le_of_lt]
  · unfold check_length
    split <;> split <;>
      simp_all [lengthTooShortV, lengthTooLongV, not_lt, le_of_lt]
  · refine ⟨{ min_length := 10, max_length := 2 }, ['a', 'a', 'a', 'a', 'a'],
      by decide, by decide, by decide⟩

/-! ### C8 -/

/-- C8: with `allow_unicode = false`, the character-set check emits
`unicode_not_allowed` at most once even when several characters exceed
code point 127, and emits it exactly when at least one such character
exists. -/
theorem C8_unicode_not_allowed_once (pw : List Char) (pol : PasswordPolicy)
    (h : pol.allow_unicode = false) :
    (check_character_rules pw pol).countP
      (fun v => v.code == "unicode_not_allowed") ≤ 1 ∧
    ((∃ v ∈ check_character_rules pw pol, v.code = "unicode_not_allowed") ↔
      ∃ c ∈ pw, 127 < c.toNat) := by
  unfold check_character_rules
  simp only [h, Bool.not_false, Bool.true_and]
  constructor
  · rcases hs : (!pol.allow_spaces && pw.any pyIsSpace) <;>
      rcases ha : pw.any (fun ch => decide (127 < ch.toNat)) <;>
      simp [hs, ha] <;> decide
  · rcases hs : (!pol.allow_spaces && pw.any pyIsSpace) <;>
      rcases ha : pw.any (fun ch => decide (127 < ch.toNat)) <;>
      simp_all [List.any_eq_true, spacesNotAllowedV, unicodeNotAllowedV]

/-- Closed instance of `C8_unicode_not_allowed_once` at the two-character
password `[€, €]` and a policy with `allow_unicode := false`. -/
theorem C8_unicode_not_allowed_once_witness :
    (check_character_rules [Char.ofNat 8364, Char.ofNat 8364]
        { allow_unicode := false }).countP
      (fun v => v.code == "unicode_not_allowed") ≤ 1 ∧
    ((∃ v ∈ check_character_rules [Char.ofNat 8364, Char.ofNat 8364]
        { allow_unicode := false }, v.code = "unicode_not_allowed") ↔
      ∃ c ∈ [Char.ofNat 8364, Char.ofNat 8364], 127 < c.toNat) :=
  C8_unicode_not_allowed_once [Char.ofNat 8364, Char.ofNat 8364]
    { allow_unicode := false } rfl

/-! ### C9 -/

/-- C9: every analysis's suggestion list contains the unique-passwords
tip unconditionally (hence is never empty), contains the length tip
exactly when the (normalized) password is shorter than
`max 14 min_length`, and contains the case-diversity tip exactly when
lowercasing or uppercasing leaves the (normalized) password unchanged. -/
theorem C9_suggestions (env : AnalyzerEnv ε) (pw : List Char)
    (pol : PasswordPolicy) (ctx : List (List Char)) :
    tipUnique ∈ (analyze_password env pw pol ctx).suggestions ∧
    (analyze_password env pw pol ctx).suggestions ≠ [] ∧
    (tipLonger ∈ (analyze_password env pw pol ctx).suggestions ↔
      ((apply_normalization env pw pol).length : Int) < max 14 pol.min_length) ∧
    (tipMixing ∈ (analyze_password env pw pol ctx).suggestions ↔
      (env.lower (apply_normalization env pw pol) = apply_normalization env pw pol ∨
       env.upper (apply_normalization env pw pol) = apply_normalization env pw pol)) := by
  have h1 : tipLonger ≠ tipUnique := by decide
  have h2 : tipMixing ≠ tipUnique := by decide
  have h3 : tipLonger ≠ tipMixing := by decide
  have hsugg : (analyze_password env pw pol ctx).suggestions =
      general_suggestions env (apply_normalization env pw pol) pol := rfl
  rw [hsugg]
  unfold general_suggestions
  split <;> split <;> simp_all [h1.symm, h2.symm, h3.symm]

/-! ### C6 -/

/-- The context-word loop reports the first context word that is
non-empty after stripping and whose casefold occurs inside the
casefolded password, and nothing else. -/
theorem context_words_loop_eq_find (cf : List Char → List Char)
    (lowered : List Char) (ws : List (List Char)) :
    context_words_loop cf lowered ws =
      match ((ws.map pyStrip).filter (fun w => !w.isEmpty)).find?
          (fun w => decide (List.IsInfix (cf w) lowered)) with
      | none => []
      | some w => [containsContextWordV w] := by
  induction ws with
  | nil => rfl
  | cons word rest ih =>
    unfold context_words_loop
    dsimp only
    by_cases hbl : (pyStrip word).isEmpty
    · simpa [List.filter_cons, hbl] using ih
    · by_cases hin : List.IsInfix (cf (pyStrip word)) lowered
      · simp [List.filter_cons, hbl, List.find?_cons, hin]
      · simpa [List.filter_cons, hbl, List.find?_cons, hin] using ih

/-- C6: the context-word check is skipped when `forbid_context_words`
is false or the context list is empty; otherwise it strips each word,
skips words blank after stripping, tests case-insensitive substring
containment in the password, and reports only the first matching word,
so it emits at most one violation. -/
theorem C6_context_words (env : AnalyzerEnv ε) (pw : List Char)
    (pol : PasswordPolicy) (ctx : List (List Char)) :
    ((pol.forbid_context_words = false ∨ ctx = []) →
      (analyze_password env pw pol ctx).violations =
        check_length (apply_normalization env pw pol) pol ++
        check_character_rules (apply_normalization env pw pol) pol ++
        check_composition env (apply_normalization env pw pol) pol ++
        check_blocklist env (apply_normalization env pw pol) pol ++
        check_pwned env (apply_normalization env pw pol) pol) ∧
    (check_context_words env.casefold pw ctx =
      match ((ctx.map pyStrip).filter (fun w => !w.isEmpty)).find?
          (fun w => decide (List.IsInfix (env.casefold w) (env.casefold pw))) with
      | none => []
      | some w => [containsContextWordV w]) ∧
    (check_context_words env.casefold pw ctx).length ≤ 1 := by
  refine ⟨?_, ?_, ?_⟩
  · intro h
    unfold analyze_password
    rcases h with h | h <;> simp [h]
  · exact context_words_loop_eq_find env.casefold (env.casefold pw) ctx
  · rw [show check_context_words env.casefold pw ctx =
        context_words_loop env.casefold (env.casefold pw) ctx from rfl,
      context_words_loop_eq_find]
    split <;> simp

/-- Closed instance of `C6_context_words`: with an empty context list
the context-word check contributes nothing to the analysis. -/
theorem C6_context_words_witness :
    (analyze_password defaultEnv ['a'] {} []).violations =
      check_length (apply_normalization defaultEnv ['a'] {}) {} ++
      check_character_rules (apply_normalization defaultEnv ['a'] {}) {} ++
      check_composition defaultEnv (apply_normalization defaultEnv ['a'] {}) {} ++
      check_blocklist defaultEnv (apply_normalization defaultEnv ['a'] {}) {} ++
      check_pwned defaultEnv (apply_normalization defaultEnv ['a'] {}) {} :=
  (C6_context_words defaultEnv ['a'] {} []).1 (Or.inr rfl)

/-! ### C4 -/

/-- Helper: the violation list of an analysis, unfolded to the ordered
concatenation of the six checks on the normalized password. -/
theorem analyze_violations_eq (env : AnalyzerEnv ε) (pw : List Char)
    (pol : PasswordPolicy) (ctx : List (List Char)) :
    (analyze_password env pw pol ctx).violations =
      check_length (apply_normalization env pw pol) pol ++
      check_character_rules (apply_normalization env pw pol) pol ++
      check_composition env (apply_normalization env pw pol) pol ++
      (if pol.forbid_context_words && !ctx.isEmpty then
        check_context_words env.casefold (apply_normalization env pw pol) ctx
      else []) ++
      check_blocklist env (apply_normalization env pw pol) pol ++
      check_pwned env (apply_normalization env pw pol) pol := rfl

/-- Helper: with a configured path whose file is missing, the blocklist
check ignores the password and reports `blocklist_missing`. -/
theorem check_blocklist_of_missing {env : AnalyzerEnv ε} {pol : PasswordPolicy}
    {p : String} (hp : pol.local_blocklist_path = some p)
    (hf : env.fs p = none) (x : List Char) :
    check_blocklist env x pol = [blocklistMissingV p] := by
  simp [check_blocklist, hp, hf]

/-- C4: when `local_blocklist_path` points at a missing file the
blocklist check emits exactly the one violation `blocklist_missing`,
and no violation of the whole analysis carries the code
`blocklisted_password`; when the path is unset the check emits
nothing. -/
theorem C4_blocklist_missing_fail_safe (env : AnalyzerEnv ε) (pw : List Char)
    (pol : PasswordPolicy) (ctx : List (List Char)) :
    (∀ p, pol.local_blocklist_path = some p → env.fs p = none →
      check_blocklist env pw pol = [blocklistMissingV p] ∧
      ∀ v ∈ (analyze_password env pw pol ctx).violations,
        v.code ≠ "blocklisted_password") ∧
    (pol.local_blocklist_path = none → check_blocklist env pw pol = []) := by
  constructor
  · intro p hp hf
    refine ⟨check_blocklist_of_missing hp hf pw, ?_⟩
    rw [analyze_violations_eq]
    intro v hv
    simp only [List.append_assoc, List.mem_append] at hv
    rcases hv with hv | hv | hv | hv | hv | hv
    · rcases code_of_mem_check_length hv with h | h <;> rw [h] <;> decide
    · rcases code_of_mem_check_character_rules hv with h | h <;> rw [h] <;> decide
    · rcases code_of_mem_check_composition hv with h | h | h | h <;>
        rw [h] <;> decide
    · split at hv
      · rw [code_of_mem_check_context_words hv]; decide
      · simp at hv
    · rw [check_blocklist_of_missing hp hf] at hv
      simp only [List.mem_singleton] at hv
      rw [hv]
      simp only [blocklistMissingV]
      decide
    · rcases code_of_mem_check_pwned hv with h | h <;> rw [h] <;> decide
  · intro h
    unfold check_blocklist
    rw [h]

/-- Closed instance of `C4_blocklist_missing_fail_safe`: a policy whose
blocklist path names a file absent from the filesystem, and a policy
with no blocklist path. -/
theorem C4_blocklist_missing_fail_safe_witness :
    (check_blocklist defaultEnv ['a'] { local_blocklist_path := some "bl.txt" } =
      [blocklistMissingV "bl.txt"] ∧
     ∀ v ∈ (analyze_password defaultEnv ['a']
        { local_blocklist_path := some "bl.txt" } []).violations,
        v.code ≠ "blocklisted_password") ∧
    check_blocklist defaultEnv ['a'] {} = [] :=
  ⟨(C4_blocklist_missing_fail_safe defaultEnv ['a']
      { local_blocklist_path := some "bl.txt" } []).1 "bl.txt" rfl rfl,
   (C4_blocklist_missing_fail_safe defaultEnv ['a'] {} []).2 rfl⟩

/-! ### C3 -/

/-- C3: when the breach lookup is enabled and the collaborator raises,
the breach check yields exactly the one violation `pwned_check_failed`,
and the analysis still completes: its violations are all the other
checks' results followed by that violation, and its suggestions are
produced as usual. -/
theorem C3_pwned_fail_open (env : AnalyzerEnv ε) (pw : List Char)
    (pol : PasswordPolicy) (ctx : List (List Char)) (e : ε)
    (hen : pol.check_pwned_passwords = true)
    (herr : env.net (apply_normalization env pw pol) = Except.error e) :
    check_pwned env (apply_normalization env pw pol) pol = [pwnedCheckFailedV] ∧
    (analyze_password env pw pol ctx).violations =
      check_length (apply_normalization env pw pol) pol ++
      check_character_rules (apply_normalization env pw pol) pol ++
      check_composition env (apply_normalization env pw pol) pol ++
      (if pol.forbid_context_words && !ctx.isEmpty then
        check_context_words env.casefold (apply_normalization env pw pol) ctx
      else []) ++
      check_blocklist env (apply_normalization env pw pol) pol ++
      [pwnedCheckFailedV] ∧
    (analyze_password env pw pol ctx).suggestions =
      general_suggestions env (apply_normalization env pw pol) pol := by
  have hc : check_pwned env (apply_normalization env pw pol) pol =
      [pwnedCheckFailedV] := by
    simp [check_pwned, hen, herr]
  exact ⟨hc, by rw [analyze_violations_eq, hc], rfl⟩

/-- Closed instance of `C3_pwned_fail_open` under an environment whose
breach lookup always raises. -/
theorem C3_pwned_fail_open_witness :
    check_pwned envNetError
      (apply_normalization envNetError ['a'] { check_pwned_passwords := true })
      { check_pwned_passwords := true } = [pwnedCheckFailedV] :=
  (C3_pwned_fail_open envNetError ['a'] { check_pwned_passwords := true }
    [] () rfl rfl).1

/-! ### C10 -/

/-- Helper: a violation list none of whose codes is `pwned_password`
contributes zero to the `pwned_password` count. -/
theorem countP_pwned_eq_zero {l : List PolicyViolation}
    (h : ∀ v ∈ l, v.code ≠ "pwned_password") :
    l.countP (fun v => v.code == "pwned_password") = 0 :=
  List.countP_eq_zero.2 fun v hv => by simp [h v hv]

/-- C10: when the breach lookup is enabled and succeeds, a pwned match
produces exactly one `pwned_password` violation in the whole analysis,
whose help text embeds the breach count, and a clean match produces no
violation from the breach check. -/
theorem C10_pwned_success (env : AnalyzerEnv ε) (pw : List Char)
    (pol : PasswordPolicy) (ctx : List (List Char)) (m : PwnedPasswordMatch)
    (hen : pol.check_pwned_passwords = true)
    (hok : env.net (apply_normalization env pw pol) = Except.ok m) :
    (m.is_pwned = true →
      check_pwned env (apply_normalization env pw pol) pol =
        [pwnedPasswordV m.breach_count] ∧
      (analyze_password env pw pol ctx).violations.countP
        (fun v => v.code == "pwned_password") = 1 ∧
      (pwnedPasswordV m.breach_count).help_text =
        some ("Seen " ++ toString m.breach_count ++
          " times in breaches. Choose a different password.")) ∧
    (m.is_pwned = false →
      check_pwned env (apply_normalization env pw pol) pol = []) := by
  constructor
  · intro hpw
    have hc : check_pwned env (apply_normalization env pw pol) pol =
        [pwnedPasswordV m.breach_count] := by
      simp [check_pwned, hen, hok, hpw]
    refine ⟨hc, ?_, rfl⟩
    rw [analyze_violations_eq, hc]
    simp only [List.append_assoc, List.countP_append]
    have h1 : (check_length (apply_normalization env pw pol) pol).countP
        (fun v => v.code == "pwned_password") = 0 :=
      countP_pwned_eq_zero fun v hv => by
        rcases code_of_mem_check_length hv with h | h <;> rw [h] <;> decide
    have h2 : (check_character_rules (apply_normalization env pw pol) pol).countP
        (fun v => v.code == "pwned_password") = 0 :=
      countP_pwned_eq_zero fun v hv => by
        rcases code_of_mem_check_character_rules hv with h | h <;> rw [h] <;> decide
    have h3 : (check_composition env (apply_normalization env pw pol) pol).countP
        (fun v => v.code == "pwned_password") = 0 :=
      countP_pwned_eq_zero fun v hv => by
        rcases code_of_mem_check_composition hv with h | h | h | h <;>
          rw [h] <;> decide
    have h4 : ((if pol.forbid_context_words && !ctx.isEmpty then
        check_context_words env.casefold (apply_normalization env pw pol) ctx
      else []) : List PolicyViolation).countP
        (fun v => v.code == "pwned_password") = 0 :=
      countP_pwned_eq_zero fun v hv => by
        split at hv
        · rw [code_of_mem_check_context_words hv]; decide
        · simp at hv
    have h5 : (check_blocklist env (apply_normalization env pw pol) pol).countP
        (fun v => v.code == "pwned_password") = 0 :=
      countP_pwned_eq_zero fun v hv => by
        rcases code_of_mem_check_blocklist hv with h | h <;> rw [h] <;> decide
    rw [h1, h2, h3, h4, h5]
    simp [pwnedPasswordV]
  · intro hnp
    simp [check_pwned, hen, hok, hnp]

/-- Closed instance of `C10_pwned_success`: a lookup that reports a
match seen 3 times, and a lookup that reports no match. -/
theorem C10_pwned_success_witness :
    (check_pwned envNetPwned
        (apply_normalization envNetPwned ['a'] { check_pwned_passwords := true })
        { check_pwned_passwords := true } = [pwnedPasswordV 3] ∧
      (analyze_password envNetPwned ['a']
        { check_pwned_passwords := true } []).violations.countP
        (fun v => v.code == "pwned_password") = 1 ∧
      (pwnedPasswordV 3).help_text =
        some ("Seen " ++ toString (3 : Int) ++
          " times in breaches. Choose a different password.")) ∧
    check_pwned defaultEnv
      (apply_normalization defaultEnv ['a'] { check_pwned_passwords := true })
      { check_pwned_passwords := true } = [] :=
  ⟨(C10_pwned_success envNetPwned ['a'] { check_pwned_passwords := true } []
      { is_pwned := true, breach_count := 3 } rfl rfl).1 rfl,
   (C10_pwned_success defaultEnv ['a'] { check_pwned_passwords := true } []
      { is_pwned := false } rfl rfl).2 rfl⟩

/-! ### C2 -/

/-- C2 fails on the source: on the file content `" pw\n"` the source's
loader strips the leading space and stores `"pw"`, so the check flags
the password `"pw"`, while a loader that trims nothing but the line
terminator would store `" pw"` and not match `"pw"`. -/
theorem C2_counterexample_trimming :
    load_blocklist [' ', 'p', 'w', '\n'] = [['p', 'w']] ∧
    load_blocklist_specword [' ', 'p', 'w', '\n'] = [[' ', 'p', 'w']] ∧
    check_blocklist envBlockSpace ['p', 'w']
      { local_blocklist_path := some "bl.txt" } = [blocklistedPasswordV] ∧
    ['p', 'w'] ∉ load_blocklist_specword [' ', 'p', 'w', '\n'] := by
  refine ⟨by decide, by decide, by decide, by decide⟩

/-- C2 amended: the loader reads the file newline-delimited, strips
leading and trailing whitespace from every line, ignores lines that are
blank after stripping, applies no case-folding, and the blocklist check
emits `blocklisted_password` exactly when the normalized password
equals a loaded (stripped) entry. -/
theorem C2_blocklist_load_and_match (env : AnalyzerEnv ε) (pw : List Char)
    (pol : PasswordPolicy) :
    (∀ p content, pol.local_blocklist_path = some p →
      env.fs p = some content →
      check_blocklist env pw pol =
        if pw ∈ load_blocklist content then [blocklistedPasswordV] else []) ∧
    (∀ content x, x ∈ load_blocklist content ↔
      ((∃ line ∈ splitOnNewline content, pyStrip line = x) ∧ x ≠ [])) := by
  constructor
  · intro p content hp hf
    simp only [check_blocklist, hp, hf]
    by_cases hm : pw ∈ load_blocklist content
    · simp [hm, List.elem_iff.2 hm, List.contains]
    · simp [hm, fun h => hm (List.elem_iff.1 h), List.contains]
  · intro content x
    unfold load_blocklist
    simp [List.mem_filter, List.mem_map]

/-- Closed instance of `C2_blocklist_load_and_match` on the file
`"bl.txt"` with content `" pw\n"`. -/
theorem C2_blocklist_load_and_match_witness :
    check_blocklist envBlockSpace ['p', 'w']
      { local_blocklist_path := some "bl.txt" } =
      (if ['p', 'w'] ∈ load_blocklist [' ', 'p', 'w', '\n'] then
        [blocklistedPasswordV] else []) :=
  (C2_blocklist_load_and_match envBlockSpace ['p', 'w']
    { local_blocklist_path := some "bl.txt" }).1 "bl.txt"
    [' ', 'p', 'w', '\n'] rfl (by decide)

end PasswordPolicyAnalyzer
